import Mathlib

/-!
Shallow embedding of the expense-tracking chat bot (src/main.py) and proofs
about its conversation state machine, category catalog handling and record
sink.  Python handlers become pure Lean functions over explicit session /
global state; the Telegram ConversationHandler dispatch table (main.py,
conv_handler) becomes an explicit step function on events; the Google Sheets
backend is modelled as an in-memory list of worksheets, with injected error
outcomes standing for the exceptions the gspread calls can raise.
-/

namespace TgExpBot

/-- Conversation steps, from `DATE, CATEGORY, AMOUNT, COMMENT = range(4)`
(main.py line 32).  `ConversationHandler.END` is modelled as `none` in
`Option Step`. -/
inductive Step
  | DATE
  | CATEGORY
  | AMOUNT
  | COMMENT
deriving DecidableEq, Repr

/-- The per-dialogue scratch state `context.user_data`: the four keys the
handlers write (`date`, `category`, `amount`, `comment`).  A key that has not
been written is `none`; `user_data.clear()` resets all four to `none`. -/
structure Session where
  date : Option String
  category : Option String
  amount : Option ℚ
  comment : Option String
deriving DecidableEq, Repr

/-- The cleared `user_data` dict. -/
def emptySession : Session := ⟨none, none, none, none⟩

/-- A calendar date as the `datetime.date` values used by `handle_date`. -/
structure PDate where
  day : Nat
  month : Nat
  year : Nat
deriving DecidableEq, Repr

/-- Gregorian leap-year rule, as implemented by the external `datetime`
library used at main.py line 207. -/
def isLeap (y : Nat) : Bool :=
  (y % 4 = 0 && y % 100 ≠ 0) || y % 400 = 0

/-- Days in a month of the proleptic Gregorian calendar. -/
def daysInMonth (y m : Nat) : Nat :=
  if m = 2 then (if isLeap y then 29 else 28)
  else if m = 4 ∨ m = 6 ∨ m = 9 ∨ m = 11 then 30
  else 31

/-- Models `datetime.now().date() - timedelta(days=1)` (main.py line 207). -/
def prevDay (d : PDate) : PDate :=
  if d.day > 1 then ⟨d.day - 1, d.month, d.year⟩
  else if d.month > 1 then ⟨daysInMonth d.year (d.month - 1), d.month - 1, d.year⟩
  else ⟨31, 12, d.year - 1⟩

/-- Zero-pad a day or month number to two digits, as `%d` / `%m` do. -/
def pad2 (n : Nat) : String :=
  if n < 10 then "0" ++ toString n else toString n

/-- Models `selected_date.strftime("%d.%m.%Y")` (main.py line 212) for the
four-digit years `datetime.now()` produces. -/
def fmtDate (d : PDate) : String :=
  pad2 d.day ++ "." ++ pad2 d.month ++ "." ++ toString d.year

/-- One cell of an appended spreadsheet row: the Python row at main.py lines
289 to 294 mixes strings and the float amount. -/
inductive Cell
  | str (s : String)
  | num (q : ℚ)
deriving DecidableEq, Repr

/-- A worksheet of the configured Google spreadsheet: its title, the grid
dimensions passed to `add_worksheet`, and its content rows in order. -/
structure Worksheet where
  title : String
  gridRows : Nat
  gridCols : Nat
  rows : List (List Cell)
deriving DecidableEq, Repr

/-- The configured spreadsheet: its worksheets in order. -/
structure SpreadsheetData where
  sheets : List Worksheet
deriving DecidableEq, Repr

/-- Models `spreadsheet.worksheet(name)` lookup: the first worksheet with the
given title, if any. -/
def findWS : List Worksheet → String → Option Worksheet
  | [], _ => none
  | w :: l, name => if w.title = name then some w else findWS l name

/-- Models `ws.append_row(row)` on the worksheet named `name`. -/
def appendWS : List Worksheet → String → List Cell → List Worksheet
  | [], _, _ => []
  | w :: l, name, row =>
      (if w.title = name then ⟨w.title, w.gridRows, w.gridCols, w.rows ++ [row]⟩ else w)
        :: appendWS l name row

/-- The header row written when the exp sheet is first created
(main.py line 286). -/
def expHeader : List Cell :=
  [.str "Date", .str "Category", .str "Sum", .str "Comment"]

/-- Models main.py lines 281 to 286: look the exp sheet up and, when it is
missing (`WorksheetNotFound`), create it with `rows=100, cols=4` and append
the fixed header row. -/
def ensureExp (ss : SpreadsheetData) : SpreadsheetData :=
  match findWS ss.sheets "exp" with
  | some _ => ss
  | none => ⟨ss.sheets ++ [⟨"exp", 100, 4, [expHeader]⟩]⟩

/-- The content rows of the exp sheet, when that sheet exists. -/
def expRows (ss : SpreadsheetData) : Option (List (List Cell)) :=
  (findWS ss.sheets "exp").map Worksheet.rows

/-- The module-level mutable globals of main.py lines 84 to 86:
`SPREADSHEET`, `SPREADSHEET_URL` and `CATEGORIES`. -/
structure Globals where
  spreadsheet : Option SpreadsheetData
  spreadsheetURL : Option String
  categories : List String
deriving DecidableEq, Repr

/-- Outbound messages sent back through the Telegram gateway, keeping the
kind of markup each reply carries. -/
inductive Reply
  | text (msg : String)
  | editText (msg : String)
  | inlineMenu (msg : String) (buttons : List (String × String))
  | keyboardMenu (msg : String) (keys : List (List String))
  | removeKeyboard (msg : String)
deriving DecidableEq, Repr

/-- Log levels of the `logging` calls the handlers make. -/
inductive LogLevel
  | info
  | warning
  | error
deriving DecidableEq, Repr

/-- Inbound events the dispatcher routes: a callback-query button tap, a
plain text message, or a `/name` bot command. -/
inductive Event
  | callback (data : String)
  | message (text : String)
  | command (name : String)
deriving DecidableEq, Repr

/-- An exception raised by a gspread backend call inside `save_expense`:
`gspread.exceptions.APIError` or any other exception (main.py lines 300
to 305). -/
inductive BackendErr
  | api
  | other
deriving DecidableEq, Repr

/-- External inputs of one dispatch step: the current date read from
`datetime.now()`, and the backend outcome injected into a save attempt
(`none` means every gspread call succeeds). -/
structure Env where
  today : PDate
  berr : Option BackendErr
deriving Repr

/-! ## String helpers modelling the Python builtins used by the handlers -/

/-- Models `str.lower()` for the alphabets the bot compares: ASCII letters
and the Russian Cyrillic block used by the category header heuristic. -/
def pyLowerChar (c : Char) : Char :=
  if 'A' ≤ c ∧ c ≤ 'Z' then Char.ofNat (c.toNat + 32)
  else if 0x410 ≤ c.toNat ∧ c.toNat ≤ 0x42F then Char.ofNat (c.toNat + 32)
  else if c.toNat = 0x401 then Char.ofNat 0x451
  else c

/-- Models `s.lower()` character by character. -/
def pyLower (s : String) : String :=
  String.mk (s.toList.map pyLowerChar)

/-- Whether `s` starts with `p`, on character lists. -/
def startsWithList : List Char → List Char → Bool
  | [], _ => true
  | _ :: _, [] => false
  | p :: ps, c :: cs => p == c && startsWithList ps cs

/-- Whether `p` occurs contiguously inside `s`, on character lists. -/
def containsList (p : List Char) : List Char → Bool
  | [] => startsWithList p []
  | c :: cs => startsWithList p (c :: cs) || containsList p cs

/-- Models the Python substring test `pat in hay`. -/
def strContainsSub (hay pat : String) : Bool :=
  containsList pat.toList hay.toList

/-- Models `text.replace(",", ".")` from main.py line 254: every comma
becomes a period. -/
def commaToDot (s : String) : String :=
  String.mk (s.toList.map (fun c => if c = ',' then '.' else c))

/-- Numeric value of a digit list, most significant first. -/
def digitsVal (ds : List Char) : Nat :=
  ds.foldl (fun n c => 10 * n + (c.toNat - 48)) 0

/-- Models the Python builtin `float(s)` (main.py line 254) on the plain
decimal literals the bot receives: an optional sign, then digits with an
optional fractional part.  The result is the exact rational value.  Special
spellings float also accepts (exponents, inf, nan, underscores, surrounding
whitespace) are outside this model. -/
def pyFloatLit (s : String) : Option ℚ :=
  let cs := s.toList
  let signed : Bool × List Char :=
    match cs with
    | '-' :: rest => (true, rest)
    | '+' :: rest => (false, rest)
    | _ => (false, cs)
  let intDigits := signed.2.takeWhile Char.isDigit
  let rest := signed.2.dropWhile Char.isDigit
  let val? : Option ℚ :=
    match rest with
    | [] => if intDigits.isEmpty then none else some (digitsVal intDigits : ℚ)
    | '.' :: frac =>
        if frac.all Char.isDigit && !(intDigits.isEmpty && frac.isEmpty) then
          some ((digitsVal intDigits : ℚ) + (digitsVal frac : ℚ) / (10 : ℚ) ^ frac.length)
        else none
    | _ => none
  val?.map (fun v => if signed.1 then -v else v)

/-! ## Handlers (main.py lines 173 to 317) -/

/-- Result of one Python handler call: the possibly mutated `user_data`, the
returned conversation state (`none` = `ConversationHandler.END`), and the
replies sent. -/
structure HOut where
  sess : Session
  result : Option Step
  replies : List Reply
deriving DecidableEq, Repr

def noSheetText : String :=
  "❌ Google таблица не установлена!\nСначала выполните: /set_sheet <ссылка_на_таблицу>"

def dateMenuText : String := "📅 Выберите дату расхода:"

def dateMenuButtons : List (String × String) :=
  [("Сегодня", "today"), ("Вчера", "yesterday"), ("Другая дата", "other")]

def emptyCatalogText : String :=
  "ℹ️ Список категорий пуст. Добавьте категории на лист cat вашей таблицы."

def categoryMenuText : String := "📁 Выберите категорию расхода:"

def categoryNotFoundText : String := "❌ Категория не найдена. Выберите из списка:"

def amountPromptText : String := "💵 Введите сумму расхода (только цифры):"

def amountErrorText : String := "❌ Неверный формат суммы. Введите число (например: 1500.50):"

def commentPromptText : String := "📝 Введите комментарий (или нажмите /skip чтобы пропустить):"

def dateFormatPromptText : String :=
  "✏️ Введите дату в формате ДД.ММ.ГГГГ (например, 25.12.2023)"

def successText : String := "✅ Расход успешно сохранен!"

def apiFailText : String := "⚠️ Ошибка при сохранении в таблицу. Попробуйте позже."

def genericFailText : String := "⚠️ Произошла ошибка при сохранении."

def cancelText : String := "❌ Операция отменена"

/-- Models `start_add_expense` (main.py lines 173 to 196): with no
spreadsheet configured it replies an error and returns `END`; otherwise it
sends the inline date menu and returns `DATE`.  It never touches
`user_data`. -/
def start_add_expense (g : Globals) : Option Step × List Reply :=
  match g.spreadsheet with
  | none => (none, [.text noSheetText])
  | some _ => (some .DATE, [.inlineMenu dateMenuText dateMenuButtons])

/-- Models `show_categories` (main.py lines 216 to 234). -/
def show_categories (cats : List String) : List Reply :=
  if cats.isEmpty then [.text emptyCatalogText]
  else [.keyboardMenu categoryMenuText (cats.map (fun c => [c]))]

/-- Models `handle_date` (main.py lines 198 to 214), called on a
callback-query choice.  The dispatcher only routes the three tokens of the
pattern here; the source resolves any token other than today or yesterday
to the free-date prompt. -/
def handle_date (env : Env) (cats : List String) (choice : String) (sess : Session) : HOut :=
  if choice = "today" then
    ⟨{ sess with date := some (fmtDate env.today) }, some .CATEGORY, show_categories cats⟩
  else if choice = "yesterday" then
    ⟨{ sess with date := some (fmtDate (prevDay env.today)) }, some .CATEGORY, show_categories cats⟩
  else
    ⟨sess, some .DATE, [.editText dateFormatPromptText]⟩

/-- Models `handle_category` (main.py lines 236 to 249): exact list
membership of the message text in the `CATEGORIES` snapshot. -/
def handle_category (cats : List String) (text : String) (sess : Session) : HOut :=
  if text ∈ cats then
    ⟨{ sess with category := some text }, some .AMOUNT, [.removeKeyboard amountPromptText]⟩
  else
    ⟨sess, some .CATEGORY, .text categoryNotFoundText :: show_categories cats⟩

/-- Models `handle_amount` (main.py lines 251 to 264).  `parse` stands for
the Python builtin `float`; both the parse failure and the explicit
`raise ValueError` on a non-positive value land in the same `except`
branch. -/
def handle_amount (parse : String → Option ℚ) (text : String) (sess : Session) : HOut :=
  match parse (commaToDot text) with
  | some a =>
      if a ≤ 0 then ⟨sess, some .AMOUNT, [.text amountErrorText]⟩
      else ⟨{ sess with amount := some a }, some .COMMENT, [.text commentPromptText]⟩
  | none => ⟨sess, some .AMOUNT, [.text amountErrorText]⟩

/-- The row built at main.py lines 289 to 294. -/
def expRow (d c : String) (a : ℚ) (cm : String) : List Cell :=
  [.str d, .str c, .num a, .str cm]

/-- Models `save_expense` (main.py lines 276 to 308).  `berr` injects an
exception raised by one of the three gspread calls of the try block
(`worksheet`, `add_worksheet` or `append_row`); partial grid effects of a
failing call sequence are not modelled.  On the success path the exp sheet
is looked up or created first, then the row is built from `user_data`
(a missing key raises `KeyError`, landing in the generic `except` branch)
and appended.  The `finally` block clears `user_data` on every path, and
every path returns `END`. -/
def save_expense (g : Globals) (sess : Session) (berr : Option BackendErr) :
    Globals × HOut :=
  match berr with
  | some .api => (g, ⟨emptySession, none, [.text apiFailText]⟩)
  | some .other => (g, ⟨emptySession, none, [.text genericFailText]⟩)
  | none =>
      match g.spreadsheet with
      | none => (g, ⟨emptySession, none, [.text genericFailText]⟩)
      | some ss =>
          let ss1 := ensureExp ss
          match sess.date, sess.category, sess.amount with
          | some d, some c, some a =>
              ({ g with
                  spreadsheet := some ⟨appendWS ss1.sheets "exp" (expRow d c a (sess.comment.getD ""))⟩ },
               ⟨emptySession, none, [.text successText]⟩)
          | _, _, _ =>
              ({ g with spreadsheet := some ss1 }, ⟨emptySession, none, [.text genericFailText]⟩)

/-- Models `handle_comment` (main.py lines 266 to 269): store the text as
the comment, then save. -/
def handle_comment (g : Globals) (berr : Option BackendErr) (text : String) (sess : Session) :
    Globals × HOut :=
  save_expense g { sess with comment := some text } berr

/-- Models `skip_comment` (main.py lines 271 to 274): store an empty
comment, then save. -/
def skip_comment (g : Globals) (berr : Option BackendErr) (sess : Session) : Globals × HOut :=
  save_expense g { sess with comment := some "" } berr

/-- Models `cancel` (main.py lines 310 to 317). -/
def cancel (_sess : Session) : HOut :=
  ⟨emptySession, none, [.removeKeyboard cancelText]⟩

/-! ## The ConversationHandler dispatch (main.py lines 329 to 347)

The conversation key holds at most one active state per user; `none` means
no conversation is active.  python-telegram-bot checks, for an active
conversation, the handlers registered for the current state and then the
fallbacks; entry points are only consulted when no conversation is active,
because `allow_reentry` keeps its default `False`.  An update nothing
matches is ignored (no other handler registered in main.py accepts the
add_expense command or plain text). -/

/-- The conversation position of one user: the active state, if any, plus
the `user_data` dict. -/
structure ConvState where
  step : Option Step
  sess : Session
deriving DecidableEq, Repr

/-- Result of feeding one update to the application. -/
structure DispatchOut where
  conv : ConvState
  globals : Globals
  replies : List Reply
deriving DecidableEq, Repr

/-- The fallback list of the ConversationHandler: only `/cancel`.  Any other
unmatched update is left unhandled. -/
def fallbackStep (g : Globals) (cs : ConvState) (ev : Event) : DispatchOut :=
  match ev with
  | .command "cancel" =>
      let o := cancel cs.sess
      ⟨⟨o.result, o.sess⟩, g, o.replies⟩
  | _ => ⟨cs, g, []⟩

/-- One dispatch step of the conversation handler, following the `states`
table of main.py lines 331 to 345: `DATE` has only the callback-query
handler with pattern today|yesterday|other, `CATEGORY` and `AMOUNT` accept
non-command text, `COMMENT` accepts non-command text or `/skip`. -/
def dispatch (parse : String → Option ℚ) (env : Env) (g : Globals) (cs : ConvState)
    (ev : Event) : DispatchOut :=
  match cs.step with
  | none =>
      match ev with
      | .command "add_expense" =>
          let (res, rs) := start_add_expense g
          ⟨⟨res, cs.sess⟩, g, rs⟩
      | _ => ⟨cs, g, []⟩
  | some st =>
      match st, ev with
      | .DATE, .callback d =>
          if d = "today" ∨ d = "yesterday" ∨ d = "other" then
            let o := handle_date env g.categories d cs.sess
            ⟨⟨o.result, o.sess⟩, g, o.replies⟩
          else fallbackStep g cs ev
      | .CATEGORY, .message t =>
          let o := handle_category g.categories t cs.sess
          ⟨⟨o.result, o.sess⟩, g, o.replies⟩
      | .AMOUNT, .message t =>
          let o := handle_amount parse t cs.sess
          ⟨⟨o.result, o.sess⟩, g, o.replies⟩
      | .COMMENT, .message t =>
          let (g1, o) := handle_comment g env.berr t cs.sess
          ⟨⟨o.result, o.sess⟩, g1, o.replies⟩
      | .COMMENT, .command "skip" =>
          let (g1, o) := skip_comment g env.berr cs.sess
          ⟨⟨o.result, o.sess⟩, g1, o.replies⟩
      | _, _ => fallbackStep g cs ev

/-! ## Category catalog load and /set_sheet (main.py lines 99 to 171) -/

/-- Outcome of fetching column 1 of the cat worksheet: the raw values, a
`WorksheetNotFound`, or an `APIError` (with its 404 status flag, read by the
outer handler). -/
inductive FetchCatsResult
  | ok (col : List String)
  | worksheetNotFound
  | apiError (is404 : Bool)
deriving DecidableEq, Repr

/-- Models the header heuristic of main.py lines 134 to 136: the first
entry is dropped when its lowercased form contains the substring
category or категория. -/
def stripHeader (col : List String) : List String :=
  match col with
  | [] => []
  | first :: rest =>
      if strContainsSub (pyLower first) "category" || strContainsSub (pyLower first) "категория" then rest
      else first :: rest

/-- The claim of the specification, stated in its own words for comparison:
the first entry is discarded if and only if it case-insensitively MATCHES a
category header label in one of the two supported languages. -/
def stripHeaderSpec (col : List String) : List String :=
  match col with
  | [] => []
  | first :: rest =>
      if pyLower first = "category" ∨ pyLower first = "категория" then rest
      else first :: rest

/-- Models the inner category-loading try block of `set_spreadsheet`
(main.py lines 129 to 144): on values, strip the header and log info; on
`WorksheetNotFound`, the catalog becomes empty and a warning is logged; on
`APIError`, an error is logged and the exception is re-raised
(`Except.error`). -/
def load_categories (fetch : FetchCatsResult) : Except Unit (List String) × List LogLevel :=
  match fetch with
  | .ok col => (Except.ok (stripHeader col), [.info])
  | .worksheetNotFound => (Except.ok [], [.warning])
  | .apiError _ => (Except.error (), [.error])

/-- Outcome of `CLIENT.open_by_key` (main.py line 126): the opened
spreadsheet, an `APIError` (with 404 flag), or any other exception. -/
inductive OpenResult
  | ok (ss : SpreadsheetData)
  | apiError (is404 : Bool)
  | exc
deriving DecidableEq, Repr

/-- The success reply of main.py lines 146 to 150 (url and count
interpolated). -/
def sheetSetText (url : String) (n : Nat) : String :=
  "✅ Таблица установлена!\nСсылка: " ++ url ++ "\nЗагружено категорий: " ++ toString n

/-- The APIError reply of main.py lines 159 to 168; the interpolated
exception text is dropped from the model. -/
def apiErrorText (is404 : Bool) : String :=
  if is404 then
    "⚠️ Таблица не найдена. Проверьте:\n1. Правильность ссылки\n2. Доступ сервисного аккаунта к таблице\nОшибка: "
  else "⚠️ Ошибка Google Sheets API: "

/-- Models `set_spreadsheet` (main.py lines 99 to 171) from the point where
a spreadsheet id has been extracted from the url: `open_by_key` runs first;
on success `SPREADSHEET` and `SPREADSHEET_URL` are assigned immediately
(lines 126 to 127), before the category load, whose `APIError` propagates to
the outer handler with those two globals already rebound and `CATEGORIES`
untouched. -/
def set_spreadsheet_core (url : String) (openRes : OpenResult) (fetch : FetchCatsResult)
    (g : Globals) : Globals × List Reply :=
  match openRes with
  | .exc => (g, [.text "⚠️ Произошла ошибка: "])
  | .apiError is404 => (g, [.text (apiErrorText is404)])
  | .ok ss =>
      let g1 := { g with spreadsheet := some ss, spreadsheetURL := some url }
      match fetch with
      | .ok col =>
          let cats := stripHeader col
          ({ g1 with categories := cats }, [.text (sheetSetText url cats.length)])
      | .worksheetNotFound =>
          ({ g1 with categories := [] }, [.text (sheetSetText url 0)])
      | .apiError is404 => (g1, [.text (apiErrorText is404)])

/-! ## Helper lemmas -/

/-- A list starts with `p` exactly when it is `p` followed by some tail. -/
theorem startsWithList_iff (p s : List Char) :
    startsWithList p s = true ↔ ∃ t, s = p ++ t := by
  induction p generalizing s with
  | nil => simp [startsWithList]
  | cons a ps ih =>
      cases s with
      | nil => simp [startsWithList]
      | cons b t =>
          simp only [startsWithList, Bool.and_eq_true, beq_iff_eq, ih, List.cons_append,
            List.cons.injEq]
          constructor
          · rintro ⟨rfl, u, rfl⟩; exact ⟨u, rfl, rfl⟩
          · rintro ⟨u, rfl, rfl⟩; exact ⟨rfl, u, rfl⟩

/-- `containsList` decides contiguous containment. -/
theorem containsList_iff (p s : List Char) :
    containsList p s = true ↔ ∃ u t, s = u ++ p ++ t := by
  induction s with
  | nil =>
      simp only [containsList, startsWithList_iff]
      constructor
      · rintro ⟨t, ht⟩; exact ⟨[], t, by simpa using ht⟩
      · rintro ⟨u, t, ht⟩
        have h1 := List.append_eq_nil.mp ht.symm
        have h2 := List.append_eq_nil.mp h1.1
        exact ⟨[], by simp [h2.2]⟩
  | cons c cs ih =>
      simp only [containsList, Bool.or_eq_true, startsWithList_iff, ih]
      constructor
      · rintro (⟨t, ht⟩ | ⟨u, t, ht⟩)
        · exact ⟨[], t, by simpa using ht⟩
        · exact ⟨c :: u, t, by simp [ht]⟩
      · rintro ⟨u, t, ht⟩
        cases u with
        | nil => exact Or.inl ⟨t, by simpa using ht⟩
        | cons x xs =>
            rw [List.cons_append, List.cons_append] at ht
            injection ht with h1 h2
            exact Or.inr ⟨xs, t, h2⟩

/-- The model of the Python substring test agrees with the mathematical
notion of substring: `pat in hay` holds exactly when `hay` splits as
`p ++ pat ++ q`. -/
theorem strContainsSub_iff (hay pat : String) :
    strContainsSub hay pat = true ↔ ∃ p q : String, hay = p ++ pat ++ q := by
  constructor
  · intro h
    obtain ⟨u, t, hut⟩ := (containsList_iff _ _).mp h
    refine ⟨⟨u⟩, ⟨t⟩, ?_⟩
    ext1
    simpa [String.data_append] using hut
  · rintro ⟨p, q, h⟩
    apply (containsList_iff pat.toList hay.toList).mpr
    refine ⟨p.data, q.data, ?_⟩
    have : hay.data = p.data ++ pat.data ++ q.data := by simp [h, String.data_append]
    simpa using this

/-- Appending a row to the worksheet named `name` changes exactly the rows
of the first worksheet with that title, as seen through lookup. -/
theorem findWS_appendWS (l : List Worksheet) (name : String) (row : List Cell) :
    findWS (appendWS l name row) name =
      (findWS l name).map (fun w => ⟨w.title, w.gridRows, w.gridCols, w.rows ++ [row]⟩) := by
  induction l with
  | nil => rfl
  | cons w l ih =>
      by_cases h : w.title = name
      · simp [findWS, appendWS, h]
      · simp [findWS, appendWS, h, ih]

/-- Lookup skips a list in which the title does not occur. -/
theorem findWS_append_none (l1 l2 : List Worksheet) (name : String)
    (h : findWS l1 name = none) : findWS (l1 ++ l2) name = findWS l2 name := by
  induction l1 with
  | nil => rfl
  | cons w l ih =>
      by_cases hw : w.title = name
      · simp [findWS, hw] at h
      · simp only [List.cons_append, findWS, if_neg hw] at h ⊢
        exact ih h

/-- After `ensureExp`, appending a row to the exp sheet extends its rows by
exactly that row. -/
theorem expRows_after_append (ss : SpreadsheetData) (row : List Cell) :
    expRows ⟨appendWS (ensureExp ss).sheets "exp" row⟩
      = some ((expRows (ensureExp ss)).getD [] ++ [row]) := by
  have hsome : ∃ w, findWS (ensureExp ss).sheets "exp" = some w := by
    cases h : findWS ss.sheets "exp" with
    | some w => exact ⟨w, by simp [ensureExp, h]⟩
    | none =>
        exact ⟨⟨"exp", 100, 4, [expHeader]⟩,
          by simp [ensureExp, h, findWS_append_none _ _ _ h, findWS]⟩
  obtain ⟨w, hw⟩ := hsome
  simp [expRows, findWS_appendWS, hw]

/-! ## Sample concrete values used by the counterexamples -/

/-- A configured globals value: a spreadsheet with no worksheets and a
one-entry catalog. -/
def g0 : Globals := ⟨some ⟨[]⟩, some "https://docs.google.com/spreadsheets/d/abc123/edit", ["Food"]⟩

/-- A sample environment: a fixed current date, no backend failure. -/
def env0 : Env := ⟨⟨25, 12, 2023⟩, none⟩

/-! ## Claims -/

/-- Claim C1, counterexample: with a session mid-flow at `AwaitingCategory`
(a date already stored), dispatching the `/add_expense` entry-point command
does NOT restart the dialogue at `AwaitingDate` with an empty record — the
`DATE` state is not entered and the record is not cleared, because with an
active conversation only the state handlers and fallbacks are consulted and
none of them matches a command (`allow_reentry` keeps its default). -/
theorem reentry_restart_counterexample :
    ¬ ((dispatch pyFloatLit env0 g0
          ⟨some Step.CATEGORY, { emptySession with date := some "24.12.2023" }⟩
          (Event.command "add_expense")).conv = ⟨some Step.DATE, emptySession⟩) := by decide

/-- Claim C1, amended: while a session is active at any step, a fresh
`/add_expense` trigger is ignored entirely — step and session fields are
unchanged and nothing is replied; only from the idle state (and with a
spreadsheet configured) does `/add_expense` start a dialogue at
`AwaitingDate`. -/
theorem reentry_ignored_midflow (parse : String → Option ℚ) (env : Env) (g : Globals)
    (st : Step) (sess : Session) :
    dispatch parse env g ⟨some st, sess⟩ (Event.command "add_expense") = ⟨⟨some st, sess⟩, g, []⟩
    ∧ (∀ ss : SpreadsheetData,
        dispatch parse env { g with spreadsheet := some ss } ⟨none, sess⟩
            (Event.command "add_expense") =
          ⟨⟨some Step.DATE, sess⟩, { g with spreadsheet := some ss },
            [Reply.inlineMenu dateMenuText dateMenuButtons]⟩) := by
  refine ⟨?_, fun _ss => rfl⟩
  cases st <;> rfl

/-- Claim C2, counterexample: at `AwaitingDate`, a free-text message whose
text matches the day.month.year pattern neither advances the session to
`AwaitingCategory` nor stores the date — the `DATE` state registers only the
callback-query handler, so text messages fall through unhandled. -/
theorem date_freetext_counterexample :
    ¬ ((dispatch pyFloatLit env0 g0 ⟨some Step.DATE, emptySession⟩
          (Event.message "25.12.2023")).conv.step = some Step.CATEGORY
       ∧ (dispatch pyFloatLit env0 g0 ⟨some Step.DATE, emptySession⟩
          (Event.message "25.12.2023")).conv.sess.date = some "25.12.2023") := by decide

/-- Claim C2, amended: choosing "other" keeps the step at `AwaitingDate` and
re-prompts for a typed date, but any subsequent free-text message at the
date step is ignored wholesale — no date is stored, the step is unchanged,
and no reply (not even an error) is sent, regardless of whether the text
parses as a date. -/
theorem date_other_and_freetext (parse : String → Option ℚ) (env : Env) (g : Globals)
    (sess : Session) (t : String) :
    handle_date env g.categories "other" sess
      = ⟨sess, some Step.DATE, [Reply.editText dateFormatPromptText]⟩
    ∧ dispatch parse env g ⟨some Step.DATE, sess⟩ (Event.message t)
      = ⟨⟨some Step.DATE, sess⟩, g, []⟩ :=
  ⟨rfl, rfl⟩

/-- Claim C3: at `AwaitingAmount`, the text has its commas replaced by
periods and is parsed; a positive parse stores the amount and advances to
`AwaitingComment`; a failed parse and a non-positive parse take the same
single failure path, leaving the session untouched, keeping the step at
`AwaitingAmount` and re-prompting with the same error message. -/
theorem handle_amount_validation (parse : String → Option ℚ) (text : String) (sess : Session) :
    (parse (commaToDot text) = none →
        handle_amount parse text sess = ⟨sess, some Step.AMOUNT, [Reply.text amountErrorText]⟩)
    ∧ (∀ a : ℚ, parse (commaToDot text) = some a → a ≤ 0 →
        handle_amount parse text sess = ⟨sess, some Step.AMOUNT, [Reply.text amountErrorText]⟩)
    ∧ (∀ a : ℚ, parse (commaToDot text) = some a → 0 < a →
        handle_amount parse text sess =
          ⟨{ sess with amount := some a }, some Step.COMMENT, [Reply.text commentPromptText]⟩) := by
  refine ⟨fun h => ?_, fun a ha hle => ?_, fun a ha hpos => ?_⟩
  · simp [handle_amount, h]
  · simp [handle_amount, ha, hle]
  · simp [handle_amount, ha, not_le.mpr hpos]

/-- Claim C4: category validation is exact case-sensitive membership in the
current catalog snapshot; in particular the catalog `["Food", "Transport"]`
accepts `"Food"` (stored, step advances to `AwaitingAmount`) and rejects
`"food"` (step unchanged, menu re-rendered). -/
theorem handle_category_exact_match :
    (∀ (cats : List String) (text : String) (sess : Session),
        handle_category cats text sess =
          if text ∈ cats then
            ⟨{ sess with category := some text }, some Step.AMOUNT,
              [Reply.removeKeyboard amountPromptText]⟩
          else ⟨sess, some Step.CATEGORY, Reply.text categoryNotFoundText :: show_categories cats⟩)
    ∧ handle_category ["Food", "Transport"] "Food" emptySession =
        ⟨{ emptySession with category := some "Food" }, some Step.AMOUNT,
          [Reply.removeKeyboard amountPromptText]⟩
    ∧ handle_category ["Food", "Transport"] "food" emptySession =
        ⟨emptySession, some Step.CATEGORY,
          [Reply.text categoryNotFoundText,
            Reply.keyboardMenu categoryMenuText [["Food"], ["Transport"]]]⟩ := by
  refine ⟨fun _cats _text _sess => rfl, by decide, by decide⟩

/-- Claim C5, counterexample: when fetching the category column raises an
`APIError`, the catalog load does NOT yield the empty list — the error is
re-raised (`Except.error`) instead of failing soft. -/
theorem load_categories_apierror_counterexample :
    ¬ ((load_categories (FetchCatsResult.apiError false)).1 = Except.ok ([] : List String)) := by
  intro h
  exact Except.noConfusion h

/-- Claim C5, amended: only a missing worksheet fails soft — the catalog
becomes empty and a warning is logged; an `APIError` during the load is
logged as an error and re-raised to the caller, and the `CATEGORIES` global
keeps its previous snapshot. -/
theorem load_categories_failure_modes :
    load_categories FetchCatsResult.worksheetNotFound = (Except.ok [], [LogLevel.warning])
    ∧ (∀ b : Bool, load_categories (FetchCatsResult.apiError b) = (Except.error (), [LogLevel.error]))
    ∧ (∀ (url : String) (ss : SpreadsheetData) (b : Bool) (g : Globals),
        (set_spreadsheet_core url (OpenResult.ok ss) (FetchCatsResult.apiError b) g).1.categories
          = g.categories) :=
  ⟨rfl, fun _b => rfl, fun _url _ss _b _g => rfl⟩

/-- Claim C6: whatever the backend outcome of a save, the session is cleared,
the conversation returns `END`, and exactly one notification is sent; on an
`APIError` or any other exception the user is told the save failed and the
globals (hence the sheet) are untouched — no retry, no data preserved. -/
theorem save_expense_always_ends :
    (∀ (g : Globals) (sess : Session) (berr : Option BackendErr),
        (save_expense g sess berr).2.sess = emptySession
        ∧ (save_expense g sess berr).2.result = none
        ∧ (save_expense g sess berr).2.replies.length = 1)
    ∧ (∀ (g : Globals) (sess : Session),
        save_expense g sess (some BackendErr.api)
          = (g, ⟨emptySession, none, [Reply.text apiFailText]⟩)
        ∧ save_expense g sess (some BackendErr.other)
          = (g, ⟨emptySession, none, [Reply.text genericFailText]⟩)) := by
  constructor
  · intro g sess berr
    rcases berr with _ | b
    · rcases g with ⟨gs, gu, gc⟩
      rcases gs with _ | ss
      · exact ⟨rfl, rfl, rfl⟩
      · rcases sess with ⟨sd, sc, sa, scm⟩
        cases sd <;> cases sc <;> cases sa <;> exact ⟨rfl, rfl, rfl⟩
    · cases b <;> exact ⟨rfl, rfl, rfl⟩
  · exact fun g sess => ⟨rfl, rfl⟩

/-- Claim C7: a successful save first ensures the exp sheet exists — when it
is missing it is created containing exactly the header row
`[Date, Category, Sum, Comment]`, and when present it is left as is — and
then appends exactly one row `[date, category, amount, comment]` to it, in
that order, reporting success. -/
theorem save_expense_appends_row (g : Globals) (ss : SpreadsheetData) (sess : Session)
    (d c : String) (a : ℚ)
    (hg : g.spreadsheet = some ss) (hd : sess.date = some d)
    (hc : sess.category = some c) (ha : sess.amount = some a) :
    (findWS ss.sheets "exp" = none → expRows (ensureExp ss) = some [expHeader])
    ∧ (∀ w, findWS ss.sheets "exp" = some w → ensureExp ss = ss)
    ∧ (∃ ss1, (save_expense g sess none).1.spreadsheet = some ss1
        ∧ expRows ss1
          = some ((expRows (ensureExp ss)).getD [] ++ [expRow d c a (sess.comment.getD "")]))
    ∧ (save_expense g sess none).2 = ⟨emptySession, none, [Reply.text successText]⟩ := by
  refine ⟨?_, ?_, ?_, ?_⟩
  · intro h
    simp [expRows, ensureExp, h, findWS_append_none _ _ _ h, findWS]
  · intro w hw
    simp [ensureExp, hw]
  · refine ⟨⟨appendWS (ensureExp ss).sheets "exp" (expRow d c a (sess.comment.getD ""))⟩, ?_, ?_⟩
    · simp [save_expense, hg, hd, hc, ha]
    · exact expRows_after_append ss _
  · simp [save_expense, hg, hd, hc, ha]

/-- Witness for C7: a concrete save against an empty spreadsheet, with every
hypothesis discharged at a concrete input. -/
theorem save_expense_appends_row_witness :
    (save_expense ⟨some ⟨[]⟩, none, ["Food"]⟩
        ⟨some "25.12.2023", some "Food", some 100, some ""⟩ none).2
      = ⟨emptySession, none, [Reply.text successText]⟩ :=
  (save_expense_appends_row ⟨some ⟨[]⟩, none, ["Food"]⟩ ⟨[]⟩
      ⟨some "25.12.2023", some "Food", some 100, some ""⟩ "25.12.2023" "Food" 100
      rfl rfl rfl rfl).2.2.2

/-- Claim C8, counterexample: the column `["Category list", "Food"]` has a
first entry that does not case-insensitively equal a category header label
in either language, yet the code discards it (the check is substring
containment, not a match). -/
theorem stripHeader_contains_counterexample :
    stripHeader ["Category list", "Food"] = ["Food"]
    ∧ stripHeaderSpec ["Category list", "Food"] = ["Category list", "Food"] := by decide

/-- Claim C8, amended: the first loaded entry is discarded exactly when its
lowercased form CONTAINS the substring category or категория; otherwise the
column is kept unchanged, and an empty column stays empty. -/
theorem stripHeader_substring_characterization (first : String) (rest : List String) :
    (stripHeader (first :: rest) = rest ↔
      (∃ p q : String, pyLower first = p ++ "category" ++ q)
      ∨ (∃ p q : String, pyLower first = p ++ "категория" ++ q))
    ∧ (stripHeader (first :: rest) = rest ∨ stripHeader (first :: rest) = first :: rest)
    ∧ stripHeader ([] : List String) = [] := by
  have hiff : (strContainsSub (pyLower first) "category"
        || strContainsSub (pyLower first) "категория") = true ↔
      (∃ p q : String, pyLower first = p ++ "category" ++ q)
      ∨ (∃ p q : String, pyLower first = p ++ "категория" ++ q) := by
    simp only [Bool.or_eq_true, strContainsSub_iff]
  cases h : (strContainsSub (pyLower first) "category"
      || strContainsSub (pyLower first) "категория") with
  | true =>
      have hs : stripHeader (first :: rest) = rest := by simp [stripHeader, h]
      exact ⟨by rw [hs]; exact iff_of_true rfl (hiff.mp h), Or.inl hs, rfl⟩
  | false =>
      have hs : stripHeader (first :: rest) = first :: rest := by simp [stripHeader, h]
      refine ⟨?_, Or.inr hs, rfl⟩
      rw [hs]
      exact iff_of_false (List.cons_ne_self first rest)
        (fun hr => absurd (hiff.mpr hr) (by simp [h]))

/-- Claim C9: when no spreadsheet is configured, the `/add_expense` entry
point replies with the configuration error and returns `END` — no
conversation state is created and no session field is written. -/
theorem start_add_expense_no_sheet (parse : String → Option ℚ) (env : Env)
    (url : Option String) (cats : List String) (sess : Session) :
    dispatch parse env ⟨none, url, cats⟩ ⟨none, sess⟩ (Event.command "add_expense") =
      ⟨⟨none, sess⟩, ⟨none, url, cats⟩, [Reply.text noSheetText]⟩
    ∧ start_add_expense ⟨none, url, cats⟩ = (none, [Reply.text noSheetText]) :=
  ⟨rfl, rfl⟩

/-- Claim C10: when opening the new spreadsheet succeeds but the category
load then raises an `APIError`, the spreadsheet handle and url globals
already point at the new table while `CATEGORIES` retains its previous
snapshot — the globals are not updated atomically. -/
theorem set_sheet_nonatomic_globals (url : String) (ss : SpreadsheetData) (is404 : Bool)
    (g : Globals) :
    (set_spreadsheet_core url (OpenResult.ok ss) (FetchCatsResult.apiError is404) g).1.spreadsheet
      = some ss
    ∧ (set_spreadsheet_core url (OpenResult.ok ss) (FetchCatsResult.apiError is404) g).1.spreadsheetURL
      = some url
    ∧ (set_spreadsheet_core url (OpenResult.ok ss) (FetchCatsResult.apiError is404) g).1.categories
      = g.categories :=
  ⟨rfl, rfl, rfl⟩

end TgExpBot
